import Mathlib

/-!
Verification of the conversational-state and background-job layer of a
Telegram VPN storefront bot (Go sources under internal/handlers,
internal/service and the flash-sale module).

Conventions of the shallow embedding:
* time instants and durations are integers (the Go code only ever adds
  durations to instants and compares instants, so an abstract discrete
  time line is faithful);
* monetary amounts are rationals (the Go code uses float64, but every
  arithmetic step relevant to the claims, such as 450 * 50 / 100, is
  exact in binary floating point, so rational arithmetic agrees with it);
* CPU percent and network Mbps samples are integers, since the watchdog
  only compares them against thresholds and never does float arithmetic
  on them;
* Go maps keyed by int64 are either association lists or total functions
  returning the Go zero value, matching Go map-read semantics;
* goroutine interleavings are small labelled transition systems whose
  atomic steps are exactly the mutex-protected critical sections of the
  Go code.
-/

namespace VpnBot

/-! ### Flash sale (flash_sale.go, type flashSaleState) -/

/-- Nanoseconds per hour, the unit of Go time.Duration; hours enter the
code as time.Duration(hours) * time.Hour. -/
def nsPerHour : Int := 3600 * 1000000000

/-- State of flashSaleState: a discount percentage and an expiry instant.
The Go zero value has discountPercent 0 and the zero time. -/
structure FlashSaleState where
  discountPercent : Int
  endTime : Int
deriving DecidableEq

/-- Method Set: f.discountPercent = percent and
f.endTime = time.Now().Add(time.Duration(hours) * time.Hour). -/
def FlashSaleState.set (_f : FlashSaleState) (now percent hours : Int) : FlashSaleState :=
  { discountPercent := percent, endTime := now + hours * nsPerHour }

/-- Method Clear: zero percentage and the zero time. -/
def FlashSaleState.clear (_f : FlashSaleState) : FlashSaleState :=
  { discountPercent := 0, endTime := 0 }

/-- Method IsActive: discountPercent greater than 0 and time.Now() before endTime. -/
def FlashSaleState.isActive (f : FlashSaleState) (now : Int) : Bool :=
  0 < f.discountPercent && now < f.endTime

/-- Method GetDiscount: the stored percentage while time.Now() is before
endTime, and 0 afterwards. -/
def FlashSaleState.getDiscount (f : FlashSaleState) (now : Int) : Int :=
  if now < f.endTime then f.discountPercent else 0

/-- Method ApplyDiscount: the original price when the discount is not
positive, otherwise originalPrice * (100 - discount) / 100. -/
def FlashSaleState.applyDiscount (f : FlashSaleState) (now : Int) (originalPrice : ℚ) : ℚ :=
  let discount := f.getDiscount now
  if discount ≤ 0 then originalPrice
  else originalPrice * ((100 - discount : Int) : ℚ) / 100

/-! ### Broadcast fan-out accounting (handlers.go, HandleConfirmBroadcast goroutine) -/

/-- Globals of broadcastState: the running flag, the two wizard flags, the
initiating admin and the captured message (abstract, so a numeric id). -/
structure BroadcastState where
  isActive : Bool
  waitingMsg : Bool
  waitingConfirm : Bool
  adminID : Int
  message : Option Nat
deriving DecidableEq

/-- The sent and failed counters accumulated by the fan-out loop: one loop
iteration per snapshotted recipient, classifying each send as sent on nil
error and failed otherwise; a failed send only increments a counter and
never leaves the loop. ok gives the transport outcome per recipient. -/
def broadcastFanoutCounts (ok : Int → Bool) (userIDs : List Int) : Nat × Nat :=
  userIDs.foldl (fun acc uid => if ok uid then (acc.1 + 1, acc.2) else (acc.1, acc.2 + 1)) (0, 0)

/-- The final report of a broadcast run. -/
structure BroadcastSummary where
  sent : Nat
  failed : Nat
  total : Nat
deriving DecidableEq

/-- The broadcast goroutine of HandleConfirmBroadcast after the recipient
snapshot: runs the loop over the snapshotted ids, then clears isActive and
message and reports sent, failed and the snapshot length. -/
def runBroadcastGoroutine (ok : Int → Bool) (userIDs : List Int) (g : BroadcastState) :
    BroadcastState × BroadcastSummary :=
  let counts := broadcastFanoutCounts ok userIDs
  ({ g with isActive := false, message := none }, ⟨counts.1, counts.2, userIDs.length⟩)

/-! ### Broadcast launch interleaving machine (handlers.go, broadcast handlers)

Each transition below is one mutex-protected critical section of the Go
code, the granularity at which concurrent handler calls and the fan-out
goroutine interleave.  The fan-out goroutine itself never touches the
shared broadcastState until its final section, so its sends appear as
steps that only decrement a remaining-recipients counter.  fanouts lists
the remaining-recipient counters of all live fan-out goroutines, so the
at-most-one-broadcast property is expressible as a bound on its length. -/

/-- Result surfaced by HandleAdminBroadcast. -/
inductive AdminBroadcastResult
  | alreadyRunning
  | promptForMessage
deriving DecidableEq

/-- HandleAdminBroadcast: under the lock, reject when a broadcast is
active, otherwise arm the awaiting-message flags. -/
def handleAdminBroadcast (uid : Int) (g : BroadcastState) :
    BroadcastState × AdminBroadcastResult :=
  if g.isActive then (g, .alreadyRunning)
  else ({ g with waitingMsg := true, waitingConfirm := false, adminID := uid, message := none },
        .promptForMessage)

/-- HandleCancelBroadcast: clear the wizard flags; isActive is not touched. -/
def handleCancelBroadcast (g : BroadcastState) : BroadcastState :=
  { g with waitingMsg := false, waitingConfirm := false, adminID := 0, message := none }

/-- HandleBroadcastMessage: when this admin is awaited, capture the message
and move to awaiting-confirm; enumOk tells whether the subsequent recipient
count query succeeded, its failure rolls waitingConfirm back. -/
def handleBroadcastMessage (uid : Int) (m : Nat) (enumOk : Bool) (g : BroadcastState) :
    BroadcastState :=
  if g.waitingMsg = false ∨ g.adminID ≠ uid then g
  else
    let g1 := { g with waitingMsg := false, waitingConfirm := true, message := some m }
    if enumOk then g1 else { g1 with waitingConfirm := false }

/-- Guard of the launching branch of HandleConfirmBroadcast: the negation
of its rejection test. -/
def confirmGuard (uid : Int) (g : BroadcastState) : Prop :=
  g.waitingConfirm = true ∧ g.adminID = uid ∧ g.message.isSome = true

/-- First critical section of a successful confirm: consume
waitingConfirm and set the running flag, in one locked section. -/
def launchBroadcastGlobals (g : BroadcastState) : BroadcastState :=
  { g with waitingConfirm := false, isActive := true }

/-- Recipient-enumeration failure right after launch: clear the running
flag again and abort before any send. -/
def abortLaunchGlobals (g : BroadcastState) : BroadcastState :=
  { g with isActive := false }

/-- Final critical section of the fan-out goroutine: clear the running
flag and drop the captured message. -/
def finishBroadcastGlobals (g : BroadcastState) : BroadcastState :=
  { g with isActive := false, message := none }

/-- Whole-system state: the shared broadcastState plus the
remaining-recipient counters of the live fan-out goroutines. -/
structure BroadcastSys where
  g : BroadcastState
  fanouts : List Nat
deriving DecidableEq

/-- Process start: zero-valued globals, no goroutine. -/
def broadcastInit : BroadcastSys := ⟨⟨false, false, false, 0, none⟩, []⟩

/-- One atomic step of the broadcast subsystem.  Rejected confirm calls
leave the state unchanged and are omitted as identity steps. -/
inductive BStep : BroadcastSys → BroadcastSys → Prop
  | adminBroadcast (uid : Int) (s : BroadcastSys) :
      BStep s { s with g := (handleAdminBroadcast uid s.g).1 }
  | cancelBroadcast (s : BroadcastSys) :
      BStep s { s with g := handleCancelBroadcast s.g }
  | broadcastMessage (uid : Int) (m : Nat) (enumOk : Bool) (s : BroadcastSys) :
      BStep s { s with g := handleBroadcastMessage uid m enumOk s.g }
  | confirmLaunch (uid : Int) (nRecipients : Nat) (s : BroadcastSys)
      (h : confirmGuard uid s.g) :
      BStep s { g := launchBroadcastGlobals s.g, fanouts := nRecipients :: s.fanouts }
  | confirmEnumFail (uid : Int) (s : BroadcastSys) (h : confirmGuard uid s.g) :
      BStep s { s with g := abortLaunchGlobals (launchBroadcastGlobals s.g) }
  | fanoutSend (n : Nat) (rest : List Nat) (s : BroadcastSys) (h : s.fanouts = (n + 1) :: rest) :
      BStep s { s with fanouts := n :: rest }
  | fanoutFinish (rest : List Nat) (s : BroadcastSys) (h : s.fanouts = 0 :: rest) :
      BStep s { g := finishBroadcastGlobals s.g, fanouts := rest }

/-- States reachable from process start by any interleaving. -/
def ReachableB (s : BroadcastSys) : Prop :=
  Relation.ReflTransGen BStep broadcastInit s

/-- Inductive invariant: the wizard is never in both awaiting states at
once, a live fan-out forces the running flag and clears both awaiting
flags, and at most one fan-out goroutine is ever live. -/
def BroadcastInv (s : BroadcastSys) : Prop :=
  (¬(s.g.waitingMsg = true ∧ s.g.waitingConfirm = true)) ∧
  (s.fanouts ≠ [] → s.g.isActive = true ∧ s.g.waitingConfirm = false ∧ s.g.waitingMsg = false) ∧
  s.fanouts.length ≤ 1

/-- A reachable state used to witness the at-most-one-broadcast theorem:
admin 1 arms the wizard, submits message 5, confirms, and the fan-out
with 3 recipients is still running. -/
def broadcastBusySample : BroadcastSys :=
  ⟨⟨true, false, false, 1, some 5⟩, [3]⟩

/-! ### Decimal digits (shared by strconv.ParseInt and the ticket tag) -/

/-- Largest value of a Go int64. -/
def int64Max : Nat := 9223372036854775807

/-- The decimal digit character for d below 10 (codepoint 48 + d). -/
def digitChar (d : Nat) : Char := Char.ofNat (48 + d)

/-- Numeric value of a decimal digit character. -/
def charVal (c : Char) : Nat := c.toNat - 48

/-- Value of a decimal digit string, most significant digit first. -/
def digitsVal (ds : List Char) : Nat :=
  ds.foldl (fun acc c => acc * 10 + charVal c) 0

/-- Decimal representation of a natural number, written with explicit
fuel so that it reduces definitionally; natToDigits supplies enough. -/
def natToDigitsAux : Nat → Nat → List Char
  | 0, _ => []
  | fuel + 1, n => if n < 10 then [digitChar n] else natToDigitsAux fuel (n / 10) ++ [digitChar (n % 10)]

/-- Decimal representation of a natural number, as printed by the Go
verb for an integer. -/
def natToDigits (n : Nat) : List Char := natToDigitsAux (n + 1) n

/-- Parse of a nonempty all-digit string. -/
def parseDigits (s : List Char) : Option Nat :=
  if s.all Char.isDigit && !s.isEmpty then some (digitsVal s) else none

/-- strconv.ParseInt with base 10 and bitSize 64: an optional sign, then
nonempty digits, rejected outside the int64 range. -/
def parseInt64 (s : List Char) : Option Int :=
  match s with
  | '+' :: rest => (parseDigits rest).bind fun n => if n ≤ int64Max then some (n : Int) else none
  | '-' :: rest =>
      (parseDigits rest).bind fun n => if n ≤ int64Max + 1 then some (-(n : Int)) else none
  | _ => (parseDigits s).bind fun n => if n ≤ int64Max then some (n : Int) else none

/-- strings.TrimSpace: drop whitespace from both ends. -/
def trimSpace (s : List Char) : List Char :=
  ((s.dropWhile Char.isWhitespace).reverse.dropWhile Char.isWhitespace).reverse

/-! ### Key issuance flow (handlers.go, HandleIssueUserID) -/

/-- One admin issue-key session: step 1 chooses the product, step 2 the
duration, step 3 awaits the target user id. -/
structure IssueSession where
  step : Nat
  productID : Int
  days : Nat
deriving DecidableEq

/-- The issue.sessions map, keyed by admin id. -/
abbrev IssueSessions := List (Int × IssueSession)

/-- Observable outcome of HandleIssueUserID. -/
inductive IssueOutcome
  | ignored
  | invalidIDPrompt
  | subscriptionCreated (telegramID : Int) (productID : Int) (days : Nat)
  | creationFailed
deriving DecidableEq

/-- HandleIssueUserID: look up the admin session and ignore the event
unless it is at step 3; otherwise delete the session, then parse the
trimmed text as an int64.  A parse failure sends the invalid-id prompt;
on success GiftSubscription runs, with giftOk telling whether it
succeeded. -/
def handleIssueUserID (giftOk : Bool) (sessions : IssueSessions) (uid : Int)
    (text : List Char) : IssueSessions × IssueOutcome :=
  match List.lookup uid sessions with
  | none => (sessions, .ignored)
  | some session =>
    if session.step ≠ 3 then (sessions, .ignored)
    else
      let sessions1 := sessions.filter (fun p => p.1 != uid)
      match parseInt64 (trimSpace text) with
      | none => (sessions1, .invalidIDPrompt)
      | some telegramID =>
        if giftOk then (sessions1, .subscriptionCreated telegramID session.productID session.days)
        else (sessions1, .creationFailed)

/-- The issue.sessions contents of the step-3 counterexample: actor 555
chose product 1 and 30 days. -/
def issueStep3Sessions : IssueSessions := [(555, ⟨3, 1, 30⟩)]

/-! ### Inbound text dispatch (handlers.go, the OnText closure in RegisterAdmin) -/

/-- Static routing environment: the configured admin ids and the support
group chat id. -/
structure RouterEnv where
  adminIDs : List Int
  supportGroupID : Int

/-- Method isAdmin: linear scan of the configured admin ids. -/
def isAdmin (env : RouterEnv) (userID : Int) : Bool :=
  env.adminIDs.contains userID

/-- The mutable per-actor state the OnText closure consults, with Go
zero-value map reads: absent keys read as false, 0 or nil. -/
structure RouterState where
  promoWaiting : List Int
  supportUsers : List Int
  adminReplyingTo : Int → Int
  broadcastWaitingMsg : Bool
  broadcastAdminID : Int
  searchWaiting : List Int
  addBalTo : Int → Int
  issueSessions : Int → Option IssueSession
  promoWizardSessions : List Int
  promoDeleteWaiting : List Int

/-- Which handler consumes an inbound text event. -/
inductive TextRoute
  | supportGroupBridge
  | userPromoInput
  | supportUserMessage
  | droppedNonAdmin
  | supportAdminReply (target : Int)
  | broadcastMessage
  | adminAddBalAmount (target : Int)
  | adminFindUserInput
  | issueUserID
  | promoWizardInput
  | promoDeleteInput
  | noHandler
deriving DecidableEq

/-- The OnText dispatch chain, mirror of the if cascade in RegisterAdmin:
support group first, then promo entry for non-admins, then support mode
for anyone, then the admin-only wizards. -/
def routeOnText (env : RouterEnv) (st : RouterState) (chatID userID : Int) : TextRoute :=
  if chatID = env.supportGroupID then .supportGroupBridge
  else if !isAdmin env userID && st.promoWaiting.contains userID then .userPromoInput
  else if st.supportUsers.contains userID then .supportUserMessage
  else if !isAdmin env userID then .droppedNonAdmin
  else if 0 < st.adminReplyingTo userID then .supportAdminReply (st.adminReplyingTo userID)
  else if st.broadcastWaitingMsg && st.broadcastAdminID == userID then .broadcastMessage
  else if 0 < st.addBalTo userID then .adminAddBalAmount (st.addBalTo userID)
  else if st.searchWaiting.contains userID then .adminFindUserInput
  else if (match st.issueSessions userID with
           | some s => s.step == 3
           | none => false) then .issueUserID
  else if st.promoWizardSessions.contains userID then .promoWizardInput
  else if st.promoDeleteWaiting.contains userID then .promoDeleteInput
  else .noHandler

/-- Routing environment of the precedence counterexample: admin 1 only,
support group chat id 999. -/
def routerEnvSample : RouterEnv := ⟨[1], 999⟩

/-- State of the precedence counterexample: non-staff actor 777 is
simultaneously in promo-entry mode and in support mode. -/
def routerStateSample : RouterState :=
  ⟨[777], [777], fun _ => 0, false, 0, [], fun _ => 0, fun _ => none, [], []⟩

/-! ### Load watchdog (watchdog.go: Watchdog, checkSystem, Start, Stop, runLoop) -/

/-- WatchdogConfig: the polling interval, both thresholds and the alert
cooldown.  Durations are in seconds and thresholds are the integer values
the default config uses; the code only compares samples against them. -/
structure WatchdogConfig where
  checkInterval : Int
  cpuThreshold : Int
  networkThreshold : Int
  alertCooldown : Int
deriving DecidableEq

/-- DefaultWatchdogConfig: 30 second interval, 85 percent CPU, 400 Mbps,
5 minute cooldown. -/
def defaultWatchdogConfig : WatchdogConfig := ⟨30, 85, 400, 300⟩

/-- One sample of GetSystemStats, together with the instant at which
checkSystem processes it. -/
structure SystemStatsSample where
  time : Int
  cpuPercent : Int
  networkRxMbps : Int
deriving DecidableEq

/-- The alert-gating state of the Watchdog: the last alert instant,
initially the zero time. -/
structure WatchdogAlertState where
  lastAlertTime : Int
deriving DecidableEq

/-- Method checkSystem: no emission unless a threshold is breached, no
emission while the cooldown since the last alert has not elapsed, and
otherwise an alert plus the updated last-alert instant.  The Bool is
whether sendAlert ran. -/
def checkSystem (cfg : WatchdogConfig) (st : WatchdogAlertState) (s : SystemStatsSample) :
    WatchdogAlertState × Bool :=
  let cpuAlert := cfg.cpuThreshold ≤ s.cpuPercent
  let networkAlert := cfg.networkThreshold ≤ s.networkRxMbps
  if ¬cpuAlert ∧ ¬networkAlert then (st, false)
  else if s.time - st.lastAlertTime < cfg.alertCooldown then (st, false)
  else ({ lastAlertTime := s.time }, true)

/-- The instants at which a sequence of processed samples emits alerts. -/
def watchdogAlertTimes (cfg : WatchdogConfig) : WatchdogAlertState → List SystemStatsSample → List Int
  | _, [] => []
  | st, s :: rest =>
    let r := checkSystem cfg st s
    if r.2 then s.time :: watchdogAlertTimes cfg r.1 rest
    else watchdogAlertTimes cfg r.1 rest

/-- Where the runLoop goroutine currently stands: not spawned, blocked in
its select, inside checkSystem on a given sample, or returned after
observing the stop signal. -/
inductive WatchdogPhase
  | noLoop
  | selecting
  | sampling (s : SystemStatsSample)
  | exited
deriving DecidableEq

/-- Whole watchdog state: the mutex-protected flags, the (closed) stop
channel, the alert-gating state and the loop goroutine phase. -/
structure WatchdogSys where
  isRunning : Bool
  stopClosed : Bool
  alertState : WatchdogAlertState
  phase : WatchdogPhase
deriving DecidableEq

/-- Method Start: a no-op when already running, otherwise mark running
and spawn runLoop at its select. -/
def watchdogStart (w : WatchdogSys) : WatchdogSys :=
  if w.isRunning then w else { w with isRunning := true, phase := .selecting }

/-- Method Stop: a no-op when not running, otherwise clear the running
flag and close stopChan.  It returns immediately: nothing waits for the
loop goroutine to observe the closed channel. -/
def watchdogStop (w : WatchdogSys) : WatchdogSys :=
  if !w.isRunning then w else { w with isRunning := false, stopClosed := true }

/-- Externally visible events of a watchdog execution. -/
inductive WatchdogEvent
  | startReturned
  | stopReturned
  | sampleTaken (s : SystemStatsSample)
  | stopObserved
  | checkDone (alerted : Bool)
deriving DecidableEq

/-- One atomic step of the watchdog, labelled with its event.  The select
in runLoop may take the ticker branch whenever the loop is at the select
(even with the stop channel closed, Go picks among ready cases), and
Stop may run at any time since the loop holds no lock across checkSystem. -/
inductive WatchdogStep (cfg : WatchdogConfig) : WatchdogSys → WatchdogEvent → WatchdogSys → Prop
  | startCall (w : WatchdogSys) :
      WatchdogStep cfg w .startReturned (watchdogStart w)
  | stopCall (w : WatchdogSys) :
      WatchdogStep cfg w .stopReturned (watchdogStop w)
  | tickFires (w : WatchdogSys) (s : SystemStatsSample) (h : w.phase = .selecting) :
      WatchdogStep cfg w (.sampleTaken s) { w with phase := .sampling s }
  | stopObserve (w : WatchdogSys) (h : w.phase = .selecting) (h2 : w.stopClosed = true) :
      WatchdogStep cfg w .stopObserved { w with phase := .exited }
  | checkFinish (w : WatchdogSys) (s : SystemStatsSample) (h : w.phase = .sampling s) :
      WatchdogStep cfg w (.checkDone (checkSystem cfg w.alertState s).2)
        { w with alertState := (checkSystem cfg w.alertState s).1, phase := .selecting }

/-- A labelled execution of the watchdog machine. -/
inductive WatchdogRun (cfg : WatchdogConfig) : WatchdogSys → List WatchdogEvent → WatchdogSys → Prop
  | nil (w : WatchdogSys) : WatchdogRun cfg w [] w
  | cons (w : WatchdogSys) (e : WatchdogEvent) (w1 : WatchdogSys) (es : List WatchdogEvent)
      (w2 : WatchdogSys) (hstep : WatchdogStep cfg w e w1) (hrest : WatchdogRun cfg w1 es w2) :
      WatchdogRun cfg w (e :: es) w2

/-- Is this event a sample being taken or an alert being emitted? -/
def isSampleOrAlert : WatchdogEvent → Bool
  | .sampleTaken _ => true
  | .checkDone true => true
  | _ => false

/-- Does a sample or alert event occur somewhere after a Stop return? -/
def hasSampleOrAlertAfterStop : List WatchdogEvent → Bool
  | [] => false
  | .stopReturned :: rest => rest.any isSampleOrAlert || hasSampleOrAlertAfterStop rest
  | _ :: rest => hasSampleOrAlertAfterStop rest

/-- The watchdog before Start: zero state. -/
def watchdogInit : WatchdogSys := ⟨false, false, ⟨0⟩, .noLoop⟩

/-- The breaching sample of the post-Stop-alert execution: CPU 90 percent
at instant 1000. -/
def wdBreachSample : SystemStatsSample := ⟨1000, 90, 0⟩

/-- Event list of the post-Stop-alert execution: the loop enters
checkSystem, Stop is called and returns, and only then does checkSystem
finish and emit its alert. -/
def wdStopRaceEvents : List WatchdogEvent :=
  [.startReturned, .sampleTaken wdBreachSample, .stopReturned, .checkDone true]

/-- Final state of the post-Stop-alert execution. -/
def wdStopRaceFinal : WatchdogSys := ⟨false, true, ⟨1000⟩, .selecting⟩

/-! ### Support ticket bridge (handlers.go: HandleSupportUserMessage,
handleSupportGroupMessage, extractUserIDFromTicket) -/

/-- The tag marker the forwarding header embeds and the extraction regex
looks for, the characters of the literal that precedes the actor id. -/
def ticketMarker : List Char := ['#', 'u', 's', 'e', 'r', '_']

/-- The text HandleSupportUserMessage posts to the staff group: the
ticket emoji and a space, the marker, the decimal actor id, then a
newline followed by the rest of the header line block (display name,
balance, separator; all invisible to the tag, passed as info) and finally the
forwarded content. -/
def supportPostText (uid : Nat) (info content : List Char) : List Char :=
  '🎫' :: ' ' :: (ticketMarker ++ natToDigits uid ++ '\n' :: (info ++ content))

/-- One position of the regex scan: does the marker start here, followed
by at least one digit?  If so, the greedy capture is the maximal digit
run after the marker. -/
def tagDigitsAt (s : List Char) : Option (List Char) :=
  match s with
  | '#' :: 'u' :: 's' :: 'e' :: 'r' :: '_' :: rest =>
    let ds := rest.takeWhile Char.isDigit
    if ds.isEmpty then none else some ds
  | _ => none

/-- Leftmost match of the tag regex over the text: the digit run of the
first position at which the whole pattern matches. -/
def findTagDigits : List Char → Option (List Char)
  | [] => none
  | c :: rest =>
    match tagDigitsAt (c :: rest) with
    | some ds => some ds
    | none => findTagDigits rest

/-- extractUserIDFromTicket: 0 when the pattern does not occur, otherwise
the ParseInt value of the first capture, which is 0 again if the digit
run overflows an int64. -/
def extractUserIDFromTicket (s : List Char) : Int :=
  match findTagDigits s with
  | none => 0
  | some ds => if digitsVal ds ≤ int64Max then (digitsVal ds : Int) else 0

/-- The post being replied to, as handleSupportGroupMessage inspects it:
its text, its caption, the original-sender id when the reply targets a
forwarded message with an open profile, and the text of one further
nested reply level. -/
structure RepliedToMsg where
  text : List Char
  caption : List Char
  originalSender : Option Int
  nestedReplyText : Option (List Char)

/-- The four-stage recovery of the target actor id from the replied-to
post: direct text, then caption, then original sender, then one nested
reply level, each tried only while the id is still 0. -/
def resolveTargetUserID (r : RepliedToMsg) : Int :=
  let t1 := if r.text.isEmpty then 0 else extractUserIDFromTicket r.text
  let t2 := if t1 = 0 ∧ ¬r.caption.isEmpty then extractUserIDFromTicket r.caption else t1
  let t3 := if t2 = 0 then
              match r.originalSender with
              | some uid => uid
              | none => 0
            else t2
  if t3 = 0 then
    match r.nestedReplyText with
    | some nt => if nt.isEmpty then 0 else extractUserIDFromTicket nt
    | none => 0
  else t3

/-- Observable outcome of handleSupportGroupMessage: the event is ignored
when it is not a reply, silently dropped (return nil, nothing sent, no
error surfaced) when no id is recoverable, otherwise delivered to the
recovered actor. -/
inductive StaffReplyOutcome
  | notAReply
  | droppedSilently
  | deliveredTo (uid : Int)
deriving DecidableEq

/-- handleSupportGroupMessage on an inbound staff-group event carrying an
optional replied-to post. -/
def handleSupportGroupMessage (replyTo : Option RepliedToMsg) : StaffReplyOutcome :=
  match replyTo with
  | none => .notAReply
  | some r =>
    let target := resolveTargetUserID r
    if target = 0 then .droppedSilently else .deliveredTo target

/-! ### Balance-paid purchase and extension (handlers.go: HandlePayWithBalance,
HandleExtendPay; service.go and postgres.go: DeductBalance, AddUserBalance) -/

/-- Ledger entry types the two flows write. -/
inductive TxType
  | purchase
  | manualDeposit
deriving DecidableEq

/-- One ledger row. -/
structure LedgerEntry where
  userID : Int
  amount : ℚ
  txType : TxType

/-- One subscription row; the provisioning key is abstract. -/
structure SubscriptionRow where
  userID : Int
  productID : Int
  keyString : Nat
  expiresAt : Int

/-- The relational store as the two flows see it: balances by internal
user id, the telegram-id to internal-id index, subscriptions and the
ledger. -/
structure Store where
  balances : Int → ℚ
  tidToUid : Int → Option Int
  subs : List SubscriptionRow
  txs : List LedgerEntry

/-- DB method DeductBalance: inside one transaction, fail when the
balance is insufficient, otherwise subtract and append a purchase ledger
row. -/
def dbDeductBalance (uid : Int) (amount : ℚ) (st : Store) : Option Store :=
  if st.balances uid < amount then none
  else some { st with
    balances := fun u => if u = uid then st.balances u - amount else st.balances u,
    txs := ⟨uid, -amount, .purchase⟩ :: st.txs }

/-- DB method AddUserBalance: add and append a ledger row, in one
transaction. -/
def dbAddUserBalance (uid : Int) (amount : ℚ) (t : TxType) (st : Store) : Store :=
  { st with
    balances := fun u => if u = uid then st.balances u + amount else st.balances u,
    txs := ⟨uid, amount, t⟩ :: st.txs }

/-- Service method AddUserBalance: resolve the telegram id first, then
credit; resolution failure surfaces an error and changes nothing. -/
def svcAddUserBalance (telegramID : Int) (amount : ℚ) (st : Store) : Option Store :=
  match st.tidToUid telegramID with
  | none => none
  | some uid => some (dbAddUserBalance uid amount .manualDeposit st)

/-- Outcome surfaced to the buyer by the two balance flows. -/
inductive PayOutcome
  | insufficientFunds
  | deductFailed
  | provisioningFailed
  | success
deriving DecidableEq

/-- HandlePayWithBalance after price computation: balance precheck, debit,
then CreateSubscriptionSimple, whose provisioning result is the provision
argument (some key on success).  On provisioning failure the handler
credits the same amount back through the service (ignoring the credit
call error, as the source discards it) and surfaces the error. -/
def handlePayWithBalance (uid tid productID : Int) (price : ℚ) (expiresAt : Int)
    (provision : Option Nat) (st : Store) : Store × PayOutcome :=
  if st.balances uid < price then (st, .insufficientFunds)
  else
    match dbDeductBalance uid price st with
    | none => (st, .deductFailed)
    | some st1 =>
      match provision with
      | none =>
        let st2 := match svcAddUserBalance tid price st1 with
                   | some stc => stc
                   | none => st1
        (st2, .provisioningFailed)
      | some key =>
        ({ st1 with subs := ⟨uid, productID, key, expiresAt⟩ :: st1.subs }, .success)

/-- HandleExtendPay after price computation: balance precheck, debit, then
ExtendSubscription; extendOk tells whether the extension succeeded.  On
failure the handler credits the debited amount back and surfaces the
error. -/
def handleExtendPay (uid tid : Int) (price : ℚ) (extendOk : Bool) (st : Store) :
    Store × PayOutcome :=
  if st.balances uid < price then (st, .insufficientFunds)
  else
    match dbDeductBalance uid price st with
    | none => (st, .deductFailed)
    | some st1 =>
      if extendOk then (st1, .success)
      else
        let st2 := match svcAddUserBalance tid price st1 with
                   | some stc => stc
                   | none => st1
        (st2, .provisioningFailed)

/-- A concrete store for the compensation witness: internal user 7 with
telegram id 42 holds 500. -/
def storeSample : Store :=
  ⟨fun u => if u = 7 then 500 else 0, fun t => if t = 42 then some 7 else none, [], []⟩

/-! ### Support ticket registry (support_tracker.go: SupportTracker.GetAllTickets) -/

/-- Ticket status: waiting for staff, or already replied. -/
inductive TicketStatus
  | waiting
  | replied
deriving DecidableEq

/-- One ActiveTicket; the display name plays no role in the listing logic and
modelled as a number. -/
structure ActiveTicket where
  userID : Int
  username : Nat
  lastMessageTime : Int
  status : TicketStatus
  groupMessageID : Int
  messageCount : Nat
deriving DecidableEq

/-- Rank used by the sort comparator: waiting sorts before replied. -/
def statusRank : TicketStatus → Nat
  | .waiting => 0
  | .replied => 1

/-- The total preorder realised by the comparator passed to sort.Slice:
strictly smaller status rank, or equal rank and no later activity.  Its
strict part is exactly the Go less function. -/
def ticketOrder (a b : ActiveTicket) : Prop :=
  statusRank a.status < statusRank b.status ∨
    (statusRank a.status = statusRank b.status ∧ a.lastMessageTime ≤ b.lastMessageTime)

instance : DecidableRel ticketOrder := fun a b => by
  unfold ticketOrder
  infer_instance

instance : IsTotal ActiveTicket ticketOrder where
  total a b := by
    unfold ticketOrder
    rcases Nat.lt_trichotomy (statusRank a.status) (statusRank b.status) with h | h | h
    · exact Or.inl (Or.inl h)
    · rcases le_total a.lastMessageTime b.lastMessageTime with ht | ht
      · exact Or.inl (Or.inr ⟨h, ht⟩)
      · exact Or.inr (Or.inr ⟨h.symm, ht⟩)
    · exact Or.inr (Or.inl h)

instance : IsTrans ActiveTicket ticketOrder where
  trans a b c hab hbc := by
    unfold ticketOrder at *
    rcases hab with h1 | ⟨h1, h1t⟩ <;> rcases hbc with h2 | ⟨h2, h2t⟩
    · exact Or.inl (h1.trans h2)
    · exact Or.inl (h2 ▸ h1)
    · exact Or.inl (h1 ▸ h2)
    · exact Or.inr ⟨h1.trans h2, h1t.trans h2t⟩

/-- GetAllTickets: dump the registry values and sort them with the
comparator; the result is some permutation that is sorted for the
preorder, which is exactly what the unstable sort.Slice guarantees. -/
def getAllTickets (tickets : List ActiveTicket) : List ActiveTicket :=
  List.insertionSort ticketOrder tickets

/-- A router state in which staff actor 1 is in support mode and no other
flag is set. -/
def routerStateAdminSupport : RouterState :=
  ⟨[], [1], fun _ => 0, false, 0, [], fun _ => 0, fun _ => none, [], []⟩

/-! ### Helper lemmas and claim theorems -/

/-- The invariant holds at process start. -/
lemma broadcastInv_init : BroadcastInv broadcastInit := by
  refine ⟨by simp [broadcastInit], by simp [broadcastInit], by simp [broadcastInit]⟩

/-- Every atomic step preserves the invariant. -/
lemma broadcastInv_step {s s2 : BroadcastSys} (hInv : BroadcastInv s) (hs : BStep s s2) :
    BroadcastInv s2 := by
  obtain ⟨h1, h2, h3⟩ := hInv
  cases hs with
  | adminBroadcast uid s =>
    by_cases hA : s.g.isActive
    · simpa [handleAdminBroadcast, hA] using ⟨h1, h2, h3⟩
    · have hf : s.fanouts = [] := by
        by_contra hne
        exact hA ((h2 hne).1 ▸ rfl)
      refine ⟨by simp [handleAdminBroadcast, hA], by simp [hf], by simp [hf]⟩
  | cancelBroadcast s =>
    refine ⟨by simp [handleCancelBroadcast], ?_, h3⟩
    intro hne
    exact ⟨(h2 hne).1, rfl, rfl⟩
  | broadcastMessage uid m enumOk s =>
    by_cases hG : s.g.waitingMsg = false ∨ s.g.adminID ≠ uid
    · simpa [handleBroadcastMessage, hG] using ⟨h1, h2, h3⟩
    · push_neg at hG
      have hf : s.fanouts = [] := by
        by_contra hne
        exact (by simpa [(h2 hne).2.2] using hG.1 : False)
      cases enumOk with
      | true => exact ⟨by simp [handleBroadcastMessage, hG.1, hG.2], by simp [hf], by simp [hf]⟩
      | false => exact ⟨by simp [handleBroadcastMessage, hG.1, hG.2], by simp [hf], by simp [hf]⟩
  | confirmLaunch uid n s hg =>
    have hf : s.fanouts = [] := by
      by_contra hne
      exact (by simpa [(h2 hne).2.1] using hg.1 : False)
    have hm : s.g.waitingMsg = false := by
      by_contra hw
      exact h1 ⟨by simpa using hw, hg.1⟩
    refine ⟨by simp [launchBroadcastGlobals], ?_, by simp [hf]⟩
    intro _
    exact ⟨rfl, rfl, by simpa [launchBroadcastGlobals] using hm⟩
  | confirmEnumFail uid s hg =>
    have hf : s.fanouts = [] := by
      by_contra hne
      exact (by simpa [(h2 hne).2.1] using hg.1 : False)
    refine ⟨by simp [abortLaunchGlobals, launchBroadcastGlobals], by simp [hf], by simp [hf]⟩
  | fanoutSend n rest s hfan =>
    refine ⟨h1, ?_, ?_⟩
    · intro _
      exact h2 (by simp [hfan])
    · simpa [hfan] using h3
  | fanoutFinish rest s hfan =>
    have hrest : rest = [] := by
      have := h3
      rw [hfan] at this
      simpa using this
    have hflags := h2 (by simp [hfan])
    refine ⟨by simp [finishBroadcastGlobals, hflags.2.2], ?_, ?_⟩
    · intro hne
      exact absurd hrest hne
    · simp [hrest]

/-- The invariant holds in every reachable state. -/
lemma broadcastInv_reachable {s : BroadcastSys} (h : ReachableB s) : BroadcastInv s := by
  induction h with
  | refl => exact broadcastInv_init
  | tail _ hstep ih => exact broadcastInv_step ih hstep

/-- The post-Stop-alert execution is a valid run of the machine under the
default configuration. -/
lemma wdStopRaceRun :
    WatchdogRun defaultWatchdogConfig watchdogInit wdStopRaceEvents wdStopRaceFinal := by
  have s1 : WatchdogStep defaultWatchdogConfig watchdogInit .startReturned
      ⟨true, false, ⟨0⟩, .selecting⟩ := WatchdogStep.startCall _
  have s2 : WatchdogStep defaultWatchdogConfig ⟨true, false, ⟨0⟩, .selecting⟩
      (.sampleTaken wdBreachSample) ⟨true, false, ⟨0⟩, .sampling wdBreachSample⟩ :=
    WatchdogStep.tickFires _ _ rfl
  have s3 : WatchdogStep defaultWatchdogConfig ⟨true, false, ⟨0⟩, .sampling wdBreachSample⟩
      .stopReturned ⟨false, true, ⟨0⟩, .sampling wdBreachSample⟩ := WatchdogStep.stopCall _
  have s4 : WatchdogStep defaultWatchdogConfig ⟨false, true, ⟨0⟩, .sampling wdBreachSample⟩
      (.checkDone true) wdStopRaceFinal :=
    @WatchdogStep.checkFinish defaultWatchdogConfig
      ⟨false, true, ⟨0⟩, .sampling wdBreachSample⟩ wdBreachSample rfl
  exact .cons _ _ _ _ _ s1 (.cons _ _ _ _ _ s2 (.cons _ _ _ _ _ s3 (.cons _ _ _ _ _ s4 (.nil _))))

lemma charVal_digitChar {d : Nat} (h : d < 10) : charVal (digitChar d) = d := by
  interval_cases d <;> rfl

lemma isDigit_digitChar {d : Nat} (h : d < 10) : (digitChar d).isDigit = true := by
  interval_cases d <;> rfl

lemma digitsVal_append_digit (xs : List Char) (c : Char) :
    digitsVal (xs ++ [c]) = 10 * digitsVal xs + charVal c := by
  unfold digitsVal
  rw [List.foldl_append]
  simp [Nat.mul_comm]

lemma natToDigitsAux_spec :
    ∀ fuel n, n < fuel →
      natToDigitsAux fuel n ≠ [] ∧ (∀ c ∈ natToDigitsAux fuel n, c.isDigit = true) ∧
        digitsVal (natToDigitsAux fuel n) = n := by
  intro fuel
  induction fuel with
  | zero => intro n h; omega
  | succ fuel ih =>
    intro n h
    by_cases hn : n < 10
    · refine ⟨by simp [natToDigitsAux, hn], ?_, ?_⟩
      · intro c hc
        simp only [natToDigitsAux, if_pos hn, List.mem_singleton] at hc
        exact hc ▸ isDigit_digitChar hn
      · simp [natToDigitsAux, hn, digitsVal, charVal_digitChar hn]
    · have hrec : n / 10 < fuel := by omega
      obtain ⟨hne, hdig, hval⟩ := ih (n / 10) hrec
      refine ⟨by simp [natToDigitsAux, hn], ?_, ?_⟩
      · intro c hc
        simp only [natToDigitsAux, if_neg hn, List.mem_append, List.mem_singleton] at hc
        rcases hc with hc | hc
        · exact hdig c hc
        · exact hc ▸ isDigit_digitChar (by omega)
      · simp only [natToDigitsAux, if_neg hn]
        rw [digitsVal_append_digit, hval, charVal_digitChar (by omega)]
        omega

lemma natToDigits_spec (n : Nat) :
    natToDigits n ≠ [] ∧ (∀ c ∈ natToDigits n, c.isDigit = true) ∧
      digitsVal (natToDigits n) = n :=
  natToDigitsAux_spec (n + 1) n (Nat.lt_succ_self n)

lemma takeWhile_append_stop {p : Char → Bool} {xs : List Char} {y : Char} (rest : List Char)
    (hall : ∀ c ∈ xs, p c = true) (hy : p y = false) :
    (xs ++ y :: rest).takeWhile p = xs := by
  induction xs with
  | nil => simp [List.takeWhile, hy]
  | cons x xs ihx =>
    have hx : p x = true := hall x (List.mem_cons_self x xs)
    simp only [List.cons_append, List.takeWhile, hx, List.append_eq]
    rw [ihx (fun c hc => hall c (List.mem_cons_of_mem x hc))]

lemma tagDigitsAt_marker (uid : Nat) (rest : List Char) :
    tagDigitsAt ('#' :: 'u' :: 's' :: 'e' :: 'r' :: '_' :: (natToDigits uid ++ '\n' :: rest)) =
      some (natToDigits uid) := by
  obtain ⟨hne, hdig, _⟩ := natToDigits_spec uid
  have htake : (natToDigits uid ++ '\n' :: rest).takeWhile Char.isDigit = natToDigits uid :=
    takeWhile_append_stop rest hdig rfl
  simp only [tagDigitsAt, htake]
  rw [if_neg (by simpa using hne)]

lemma findTagDigits_post (uid : Nat) (info content : List Char) :
    findTagDigits (supportPostText uid info content) = some (natToDigits uid) := by
  unfold supportPostText
  rw [findTagDigits]
  rw [show tagDigitsAt ('🎫' :: ' ' :: (ticketMarker ++ natToDigits uid ++ '\n' ::
    (info ++ content))) = none from rfl]
  rw [findTagDigits]
  rw [show tagDigitsAt (' ' :: (ticketMarker ++ natToDigits uid ++ '\n' ::
    (info ++ content))) = none from rfl]
  have : ticketMarker ++ natToDigits uid ++ '\n' :: (info ++ content) =
      '#' :: 'u' :: 's' :: 'e' :: 'r' :: '_' :: (natToDigits uid ++ '\n' :: (info ++ content)) := by
    simp [ticketMarker]
  rw [this, findTagDigits, tagDigitsAt_marker]

lemma extract_supportPostText (uid : Nat) (info content : List Char) (h : uid ≤ int64Max) :
    extractUserIDFromTicket (supportPostText uid info content) = (uid : Int) := by
  have hval := (natToDigits_spec uid).2.2
  simp only [extractUserIDFromTicket, findTagDigits_post, hval]
  rw [if_pos h]

/-- checkSystem either leaves the state unchanged and stays silent, or
alerts, records the sample instant, and the previous alert lies at least
a full cooldown in the past. -/
lemma checkSystem_cases (cfg : WatchdogConfig) (st : WatchdogAlertState) (s : SystemStatsSample) :
    checkSystem cfg st s = (st, false) ∨
      (checkSystem cfg st s = (⟨s.time⟩, true) ∧
        st.lastAlertTime + cfg.alertCooldown ≤ s.time) := by
  simp only [checkSystem]
  split_ifs with h1 h2
  · exact Or.inl rfl
  · exact Or.inl rfl
  · exact Or.inr ⟨rfl, by omega⟩

/-- Unfolding step for a silent tick. -/
lemma watchdogAlertTimes_cons_silent {cfg : WatchdogConfig} {st st1 : WatchdogAlertState}
    {s : SystemStatsSample} (rest : List SystemStatsSample)
    (hc : checkSystem cfg st s = (st1, false)) :
    watchdogAlertTimes cfg st (s :: rest) = watchdogAlertTimes cfg st1 rest := by
  simp [watchdogAlertTimes, hc]

/-- Unfolding step for an alerting tick. -/
lemma watchdogAlertTimes_cons_alert {cfg : WatchdogConfig} {st st1 : WatchdogAlertState}
    {s : SystemStatsSample} (rest : List SystemStatsSample)
    (hc : checkSystem cfg st s = (st1, true)) :
    watchdogAlertTimes cfg st (s :: rest) = s.time :: watchdogAlertTimes cfg st1 rest := by
  simp [watchdogAlertTimes, hc]

/-- Every alert instant of a run lies at least a full cooldown after the
last-alert instant the run started from. -/
lemma watchdogAlertTimes_lower (cfg : WatchdogConfig) (h0 : 0 ≤ cfg.alertCooldown) :
    ∀ (ss : List SystemStatsSample) (st : WatchdogAlertState),
      ∀ a ∈ watchdogAlertTimes cfg st ss, st.lastAlertTime + cfg.alertCooldown ≤ a := by
  intro ss
  induction ss with
  | nil => intro st a ha; simp [watchdogAlertTimes] at ha
  | cons s rest ih =>
    intro st a ha
    rcases checkSystem_cases cfg st s with hc | ⟨hc, hgap⟩
    · rw [watchdogAlertTimes_cons_silent rest hc] at ha
      exact ih st a ha
    · rw [watchdogAlertTimes_cons_alert rest hc] at ha
      rcases List.mem_cons.mp ha with rfl | ha
      · exact hgap
      · have hrec := ih ⟨s.time⟩ a ha
        simp only at hrec
        omega

/-- Consecutive and hence arbitrary pairs of alert instants are at least
a full cooldown apart. -/
lemma watchdogAlertTimes_spaced (cfg : WatchdogConfig) (h0 : 0 ≤ cfg.alertCooldown) :
    ∀ (ss : List SystemStatsSample) (st : WatchdogAlertState),
      List.Pairwise (fun a b => a + cfg.alertCooldown ≤ b) (watchdogAlertTimes cfg st ss) := by
  intro ss
  induction ss with
  | nil => intro st; simp [watchdogAlertTimes]
  | cons s rest ih =>
    intro st
    rcases checkSystem_cases cfg st s with hc | ⟨hc, _⟩
    · rw [watchdogAlertTimes_cons_silent rest hc]
      exact ih st
    · rw [watchdogAlertTimes_cons_alert rest hc]
      refine List.Pairwise.cons ?_ (ih ⟨s.time⟩)
      intro b hb
      have hrec := watchdogAlertTimes_lower cfg h0 rest ⟨s.time⟩ b hb
      simpa using hrec

/-- Claim C6: over any sequence of processed watchdog samples, no two
emitted alerts lie less than the cooldown apart, no matter how many
threshold breaches occur in between or how frequent the ticks are, and a
tick without a breach emits nothing and leaves the gating state
unchanged. -/
theorem watchdog_cooldown_spacing (cfg : WatchdogConfig) (st : WatchdogAlertState)
    (samples : List SystemStatsSample) (h0 : 0 ≤ cfg.alertCooldown) :
    List.Pairwise (fun a b => a + cfg.alertCooldown ≤ b) (watchdogAlertTimes cfg st samples) ∧
    (∀ (st2 : WatchdogAlertState) (s : SystemStatsSample),
      s.cpuPercent < cfg.cpuThreshold → s.networkRxMbps < cfg.networkThreshold →
        checkSystem cfg st2 s = (st2, false)) := by
  refine ⟨watchdogAlertTimes_spaced cfg h0 samples st, ?_⟩
  intro st2 s hcpu hnet
  unfold checkSystem
  rw [if_pos]
  constructor <;> omega

/-- Witness for C6: under the default configuration, from the initial
gating state, three back-to-back breaching ticks at instants 1000, 1030
and 1060 yield cooldown-spaced alert instants, and a concrete
non-breaching tick emits nothing and leaves the gating state unchanged. -/
theorem watchdog_cooldown_spacing_witness :
    List.Pairwise (fun a b => a + defaultWatchdogConfig.alertCooldown ≤ b)
      (watchdogAlertTimes defaultWatchdogConfig ⟨0⟩
        [⟨1000, 90, 0⟩, ⟨1030, 90, 0⟩, ⟨1060, 95, 500⟩]) ∧
    checkSystem defaultWatchdogConfig ⟨0⟩ ⟨10, 50, 100⟩ = (⟨0⟩, false) :=
  ⟨(watchdog_cooldown_spacing defaultWatchdogConfig ⟨0⟩
      [⟨1000, 90, 0⟩, ⟨1030, 90, 0⟩, ⟨1060, 95, 500⟩] (by decide)).1,
   (watchdog_cooldown_spacing defaultWatchdogConfig ⟨0⟩ [] (by decide)).2 ⟨0⟩ ⟨10, 50, 100⟩
     (by decide) (by decide)⟩

/-- Counterexample to claim C5: a valid interleaving of the watchdog in
which Stop is called and returns while the loop is inside checkSystem on
a breaching sample, and the alert is emitted after Stop has returned.
Stop closes the stop channel without any completion handshake, so the
claim that no sample or alert occurs after Stop() returns is false. -/
theorem watchdog_stop_not_blocking_counterexample :
    WatchdogRun defaultWatchdogConfig watchdogInit wdStopRaceEvents wdStopRaceFinal ∧
    hasSampleOrAlertAfterStop wdStopRaceEvents = true :=
  ⟨wdStopRaceRun, by decide⟩

/-- Claim C5 as amended: Start on a running watchdog and Stop on a
stopped one are no-ops; Stop returns without waiting for the loop to
observe the closed stop channel (it never touches the loop phase), so a
sample already in progress may complete and emit its alert after Stop
has returned, as the recorded execution shows; and once the loop has
observed the stop signal, no step takes a sample or emits an alert. -/
theorem watchdog_start_stop_idempotent_nonblocking (w1 w2 : WatchdogSys)
    (h1 : w1.isRunning = true) (h2 : w2.isRunning = false) :
    watchdogStart w1 = w1 ∧ watchdogStop w2 = w2 ∧
    (∀ w : WatchdogSys, (watchdogStop w).phase = w.phase) ∧
    (∀ (w wNext : WatchdogSys) (e : WatchdogEvent),
      WatchdogStep defaultWatchdogConfig w e wNext → w.phase = .exited →
        isSampleOrAlert e = false) ∧
    (∃ wEnd, WatchdogRun defaultWatchdogConfig watchdogInit wdStopRaceEvents wEnd ∧
      hasSampleOrAlertAfterStop wdStopRaceEvents = true) := by
  refine ⟨by simp [watchdogStart, h1], by simp [watchdogStop, h2], ?_, ?_, ?_⟩
  · intro w
    unfold watchdogStop
    split <;> rfl
  · intro w wNext e hstep hex
    cases hstep with
    | startCall => rfl
    | stopCall => rfl
    | tickFires s h => rw [hex] at h; cases h
    | stopObserve h h2x => rfl
    | checkFinish s h => rw [hex] at h; cases h
  · exact ⟨wdStopRaceFinal, wdStopRaceRun, by decide⟩

/-- Witness for the amended C5, at a running and a stopped concrete
watchdog state, including that Stop does not move the loop phase of a
state caught inside checkSystem. -/
theorem watchdog_start_stop_idempotent_nonblocking_witness :
    watchdogStart ⟨true, false, ⟨0⟩, .selecting⟩ = ⟨true, false, ⟨0⟩, .selecting⟩ ∧
    watchdogStop watchdogInit = watchdogInit ∧
    (watchdogStop ⟨true, false, ⟨0⟩, .sampling wdBreachSample⟩).phase =
      (⟨true, false, ⟨0⟩, .sampling wdBreachSample⟩ : WatchdogSys).phase :=
  ⟨(watchdog_start_stop_idempotent_nonblocking ⟨true, false, ⟨0⟩, .selecting⟩ watchdogInit
      rfl rfl).1,
   (watchdog_start_stop_idempotent_nonblocking ⟨true, false, ⟨0⟩, .selecting⟩ watchdogInit
      rfl rfl).2.1,
   (watchdog_start_stop_idempotent_nonblocking ⟨true, false, ⟨0⟩, .selecting⟩ watchdogInit
      rfl rfl).2.2.1 ⟨true, false, ⟨0⟩, .sampling wdBreachSample⟩⟩

/-- The fan-out fold counts exactly the successful and the failed sends,
for any starting counters. -/
lemma broadcastFanoutCounts_fold (ok : Int → Bool) :
    ∀ (ids : List Int) (a b : Nat),
      ids.foldl (fun acc uid => if ok uid then (acc.1 + 1, acc.2) else (acc.1, acc.2 + 1)) (a, b) =
        (a + (ids.filter ok).length, b + (ids.filter (fun i => !(ok i))).length) := by
  intro ids
  induction ids with
  | nil => intro a b; simp
  | cons i t ih =>
    intro a b
    by_cases hi : ok i = true
    · have h1 : List.filter ok (i :: t) = i :: List.filter ok t := List.filter_cons_of_pos hi
      have h2 : List.filter (fun x => !(ok x)) (i :: t) = List.filter (fun x => !(ok x)) t := by
        simp [List.filter_cons, hi]
      simp only [List.foldl_cons, hi, if_true, h1, h2, List.length_cons]
      rw [ih (a + 1) b]
      simp only [Prod.mk.injEq]
      exact ⟨by omega, by trivial⟩
    · have hb : ok i = false := by simpa using hi
      have h1 : List.filter ok (i :: t) = List.filter ok t :=
        List.filter_cons_of_neg (by simp [hb])
      have h2 : List.filter (fun x => !(ok x)) (i :: t) =
          i :: List.filter (fun x => !(ok x)) t := by
        simp [List.filter_cons, hb]
      simp only [List.foldl_cons, hb, Bool.false_eq_true, if_false, h1, h2, List.length_cons]
      rw [ih a (b + 1)]
      simp only [Prod.mk.injEq]
      exact ⟨by trivial, by omega⟩

/-- Splitting a list by a predicate preserves its length. -/
lemma length_filter_add_length_filter_not (p : Int → Bool) (l : List Int) :
    (l.filter p).length + (l.filter (fun i => !(p i))).length = l.length := by
  induction l with
  | nil => simp
  | cons i t ih =>
    by_cases hi : p i <;> simp [List.filter_cons, hi] <;> omega

/-- Claim C1: for every launched broadcast over a snapshotted recipient
list and every per-recipient transport outcome, the goroutine classifies
each recipient as sent or failed (sends are the filter by outcome, so one
failure never aborts the loop), the final summary satisfies
sent + failed = total with total the snapshot length (covering the
all-success, all-failure and empty-snapshot extremes), and the running
flag is false afterwards. -/
theorem broadcast_accounting (ok : Int → Bool) (userIDs : List Int) (g : BroadcastState) :
    (runBroadcastGoroutine ok userIDs g).2.sent + (runBroadcastGoroutine ok userIDs g).2.failed =
      (runBroadcastGoroutine ok userIDs g).2.total ∧
    (runBroadcastGoroutine ok userIDs g).2.total = userIDs.length ∧
    (runBroadcastGoroutine ok userIDs g).2.sent = (userIDs.filter ok).length ∧
    (runBroadcastGoroutine ok userIDs g).2.failed =
      (userIDs.filter (fun i => !(ok i))).length ∧
    (runBroadcastGoroutine ok userIDs g).1.isActive = false := by
  have hfold := broadcastFanoutCounts_fold ok userIDs 0 0
  have hlen := length_filter_add_length_filter_not ok userIDs
  unfold runBroadcastGoroutine broadcastFanoutCounts
  rw [hfold]
  refine ⟨by simpa using hlen, rfl, by simp, by simp, rfl⟩

/-- From a state with the running flag set, both await flags clear and a
single live fan-out, any single step leaves the running flag set unless
it is the fan-out-finishing step, which clears it and retires the
fan-out. -/
lemma bstep_flag_clear (s s2 : BroadcastSys) (hstep : BStep s s2) :
    ∀ n : Nat, s.g.isActive = true → s.g.waitingConfirm = false → s.g.waitingMsg = false →
      s.fanouts = [n] → (s2.g.isActive = false ↔ s2.fanouts = []) := by
  cases hstep with
  | adminBroadcast uid2 =>
    intro n hAct hWC hWM hfan
    simp [handleAdminBroadcast, hAct, hfan]
  | cancelBroadcast =>
    intro n hAct hWC hWM hfan
    simp [handleCancelBroadcast, hAct, hfan]
  | broadcastMessage uid2 m enumOk =>
    intro n hAct hWC hWM hfan
    simp [handleBroadcastMessage, hWM, hAct, hfan]
  | confirmLaunch uid2 nr =>
    rename_i hg
    intro n hAct hWC hWM hfan
    exact absurd hg.1 (by simp [hWC])
  | confirmEnumFail uid2 =>
    rename_i hg
    intro n hAct hWC hWM hfan
    exact absurd hg.1 (by simp [hWC])
  | fanoutSend m rest2 =>
    rename_i hfan2
    intro n hAct hWC hWM hfan
    simp [hAct, hfan]
  | fanoutFinish rest2 =>
    rename_i hfan2
    intro n hAct hWC hWM hfan
    rw [hfan] at hfan2
    rw [List.cons.injEq] at hfan2
    have hr : rest2 = [] := hfan2.2.symm
    simp [finishBroadcastGlobals, hr]

/-- Claim C2: in every reachable interleaving in which a launched
broadcast fan-out has not yet finished, a second start attempt returns
AlreadyRunning and leaves the broadcast state untouched, the global
running flag is set, no other fan-out is live, and from such a state the
flag becomes false exactly by the step that finishes the fan-out. -/
theorem broadcast_at_most_one (s : BroadcastSys) (uid : Int) (n : Nat) (rest : List Nat)
    (hreach : ReachableB s) (hfan : s.fanouts = n :: rest) :
    handleAdminBroadcast uid s.g = (s.g, .alreadyRunning) ∧
    s.g.isActive = true ∧
    rest = [] ∧
    (∀ s2 : BroadcastSys, BStep s s2 → (s2.g.isActive = false ↔ s2.fanouts = [])) := by
  obtain ⟨hNotBoth, hLive, hLen⟩ := broadcastInv_reachable hreach
  have hne : s.fanouts ≠ [] := by simp [hfan]
  obtain ⟨hAct, hWC, hWM⟩ := hLive hne
  have hrest : rest = [] := by
    rw [hfan] at hLen
    simpa using hLen
  refine ⟨by simp [handleAdminBroadcast, hAct], hAct, hrest, ?_⟩
  intro s2 hstep
  exact bstep_flag_clear s s2 hstep n hAct hWC hWM (by rw [hfan, hrest])

/-- Witness for C2 at the concrete reachable state in which admin 1 has
launched a broadcast whose fan-out still has 3 recipients to go. -/
lemma broadcastBusySample_reachable : ReachableB broadcastBusySample := by
  have t1 : BStep broadcastInit ⟨⟨false, true, false, 1, none⟩, []⟩ :=
    BStep.adminBroadcast 1 broadcastInit
  have t2 : BStep ⟨⟨false, true, false, 1, none⟩, []⟩ ⟨⟨false, false, true, 1, some 5⟩, []⟩ :=
    BStep.broadcastMessage 1 5 true _
  have t3 : BStep ⟨⟨false, false, true, 1, some 5⟩, []⟩ broadcastBusySample :=
    BStep.confirmLaunch 1 3 _ ⟨rfl, rfl, rfl⟩
  exact Relation.ReflTransGen.tail
    (Relation.ReflTransGen.tail (Relation.ReflTransGen.tail Relation.ReflTransGen.refl t1) t2) t3

/-- Applying C2 at the concrete busy state: a second start attempt by
admin 2 is rejected with AlreadyRunning and changes nothing, and the
running flag is set. -/
theorem broadcast_at_most_one_witness :
    handleAdminBroadcast 2 broadcastBusySample.g = (broadcastBusySample.g, .alreadyRunning) ∧
    broadcastBusySample.g.isActive = true :=
  ⟨(broadcast_at_most_one broadcastBusySample 2 3 [] broadcastBusySample_reachable rfl).1,
   (broadcast_at_most_one broadcastBusySample 2 3 [] broadcastBusySample_reachable rfl).2.1⟩

/-- Claim C8: the sale is active exactly when the percentage is positive
and the current instant is before the expiry; an inactive sale leaves
every price unchanged; an active sale resolves a price to
price * (100 - percent) / 100; and after Set(50, 6) at T0 the sale is
active at T0 plus one hour, inactive at T0 plus seven hours, and resolves
450 to 225 while active. -/
theorem flashSale_activity_and_discount (f : FlashSaleState) (now T0 : Int) (price : ℚ) :
    (f.isActive now = true ↔ (0 < f.discountPercent ∧ now < f.endTime)) ∧
    (f.isActive now = false → f.applyDiscount now price = price) ∧
    (f.isActive now = true →
      f.applyDiscount now price = price * ((100 - f.discountPercent : Int) : ℚ) / 100) ∧
    ((f.set T0 50 6).isActive (T0 + 1 * nsPerHour) = true) ∧
    ((f.set T0 50 6).isActive (T0 + 7 * nsPerHour) = false) ∧
    ((f.set T0 50 6).applyDiscount (T0 + 1 * nsPerHour) 450 = 225) := by
  refine ⟨?_, ?_, ?_, ?_, ?_, ?_⟩
  · simp [FlashSaleState.isActive]
  · intro h
    simp only [FlashSaleState.isActive, Bool.and_eq_false_iff] at h
    unfold FlashSaleState.applyDiscount FlashSaleState.getDiscount
    rcases h with h | h
    · simp only [decide_eq_false_iff_not, not_lt] at h
      split
      · simp
        omega
      · simp
    · simp only [decide_eq_false_iff_not, not_lt] at h
      split
      · omega
      · simp
  · intro h
    simp only [FlashSaleState.isActive, Bool.and_eq_true, decide_eq_true_eq] at h
    unfold FlashSaleState.applyDiscount FlashSaleState.getDiscount
    rw [if_pos h.2, if_neg (by omega)]
  · simp only [FlashSaleState.isActive, FlashSaleState.set, Bool.and_eq_true, decide_eq_true_eq]
    exact ⟨by norm_num, by unfold nsPerHour; omega⟩
  · simp only [FlashSaleState.isActive, FlashSaleState.set]
    have h7 : ¬ (T0 + 7 * nsPerHour < T0 + 6 * nsPerHour) := by unfold nsPerHour; omega
    simp [h7]
  · have hlt : T0 + 1 * nsPerHour < T0 + 6 * nsPerHour := by unfold nsPerHour; omega
    simp only [FlashSaleState.applyDiscount, FlashSaleState.getDiscount, FlashSaleState.set,
      if_pos hlt]
    norm_num

/-- Witness for C8 at a concrete sale: 50 percent until instant 10,
evaluated at instant 5 on price 450. -/
theorem flashSale_activity_and_discount_witness :
    (⟨50, 10⟩ : FlashSaleState).applyDiscount 5 450 = 225 ∧
    (⟨50, 10⟩ : FlashSaleState).isActive 5 = true ∧
    (⟨0, 10⟩ : FlashSaleState).applyDiscount 5 450 = 450 := by
  refine ⟨?_, by decide, ?_⟩
  · have h := (flashSale_activity_and_discount ⟨50, 10⟩ 5 0 450).2.2.1 (by decide)
    rw [h]
    norm_num
  · exact (flashSale_activity_and_discount ⟨0, 10⟩ 5 0 450).2.1 (by decide)

/-- Claim C10: the listing returns every tracked ticket exactly once (a
permutation of the registry contents) and in an order in which no
replied ticket precedes a waiting one and tickets of equal status appear
with non-decreasing last-activity instants. -/
theorem tracker_getAllTickets_sorted (tickets : List ActiveTicket) :
    (getAllTickets tickets).Perm tickets ∧
    List.Pairwise (fun a b =>
      (a.status = .replied → b.status = .replied) ∧
      (a.status = b.status → a.lastMessageTime ≤ b.lastMessageTime))
      (getAllTickets tickets) := by
  refine ⟨List.perm_insertionSort ticketOrder tickets, ?_⟩
  have hsorted : List.Pairwise ticketOrder (getAllTickets tickets) :=
    List.sorted_insertionSort ticketOrder tickets
  refine hsorted.imp ?_
  intro a b hab
  rcases hab with hlt | ⟨heq, ht⟩
  · constructor
    · intro ha
      cases hb : b.status
      · rw [ha, hb] at hlt
        simp [statusRank] at hlt
      · rfl
    · intro hs
      rw [hs] at hlt
      omega
  · constructor
    · intro ha
      cases hb : b.status
      · rw [ha, hb] at heq
        simp [statusRank] at heq
      · rfl
    · intro _
      exact ht

/-- Looking a key up after filtering that key out finds nothing. -/
lemma lookup_filter_ne (uid : Int) (l : IssueSessions) :
    List.lookup uid (l.filter (fun p => p.1 != uid)) = none := by
  induction l with
  | nil => simp
  | cons kv t ih =>
    by_cases hk : kv.1 = uid
    · simp [List.filter_cons, hk, ih]
    · have hne : (kv.1 != uid) = true := by simp [hk]
      simp only [List.filter_cons, hne, if_pos]
      rw [List.lookup]
      have : (uid == kv.1) = false := by simp [Ne.symm hk]
      simp [this, ih]

/-- Counterexample to claim C3: with actor 555 at step 3 of the issue
flow (product 1, 30 days), non-numeric input produces the invalid-id
prompt but the session map is left empty, so the slot is removed rather
than kept at step 3; no subscription outcome is produced. -/
theorem issue_userid_slot_removed_counterexample :
    handleIssueUserID true issueStep3Sessions 555 ['a', 'b', 'c'] =
      ([], .invalidIDPrompt) ∧
    List.lookup (555 : Int) (handleIssueUserID true issueStep3Sessions 555 ['a', 'b', 'c']).1 =
      none := by
  constructor
  · rfl
  · rfl

/-- Claim C3 as amended: on non-numeric input at step 3 the handler
replies with the invalid-id prompt and creates no subscription, but it
deletes the slot before parsing, so the actor is no longer in the flow
and must restart it. -/
theorem issue_userid_invalid_reprompts_and_clears (giftOk : Bool) (sessions : IssueSessions)
    (uid : Int) (text : List Char) (session : IssueSession)
    (hlook : List.lookup uid sessions = some session) (hstep : session.step = 3)
    (hparse : parseInt64 (trimSpace text) = none) :
    handleIssueUserID giftOk sessions uid text =
      (sessions.filter (fun p => p.1 != uid), .invalidIDPrompt) ∧
    List.lookup uid (handleIssueUserID giftOk sessions uid text).1 = none := by
  have hmain : handleIssueUserID giftOk sessions uid text =
      (sessions.filter (fun p => p.1 != uid), .invalidIDPrompt) := by
    unfold handleIssueUserID
    rw [hlook]
    simp [hstep, hparse]
  exact ⟨hmain, by rw [hmain]; exact lookup_filter_ne uid sessions⟩

/-- Witness for the amended C3 at the concrete step-3 session of actor
555 with the non-numeric input x. -/
theorem issue_userid_invalid_reprompts_and_clears_witness :
    handleIssueUserID false issueStep3Sessions 555 ['x'] =
      (issueStep3Sessions.filter (fun p => p.1 != 555), .invalidIDPrompt) ∧
    List.lookup (555 : Int) (handleIssueUserID false issueStep3Sessions 555 ['x']).1 = none :=
  issue_userid_invalid_reprompts_and_clears false issueStep3Sessions 555 ['x'] ⟨3, 1, 30⟩
    (by decide) rfl (by decide)

/-- Counterexample to claim C4: non-staff actor 777 is simultaneously in
promo-entry mode and in support mode, yet the router selects promo code
submission, not support-mode forwarding, because the promo check comes
first for non-staff actors. -/
theorem router_promo_over_support_counterexample :
    routeOnText routerEnvSample routerStateSample 0 777 = .userPromoInput ∧
    routeOnText routerEnvSample routerStateSample 0 777 ≠ .supportUserMessage := by
  constructor
  · rfl
  · decide

/-- Claim C4 as amended: outside the support group chat, support-mode
forwarding wins for staff actors, while for non-staff actors an active
promo-entry slot takes precedence over support mode, since the promo
check precedes the support-mode check and applies only to non-staff. -/
theorem router_precedence_amended (env : RouterEnv) (st : RouterState) (chatID uid : Int)
    (hchat : chatID ≠ env.supportGroupID) :
    (isAdmin env uid = true → st.supportUsers.contains uid = true →
      routeOnText env st chatID uid = .supportUserMessage) ∧
    (isAdmin env uid = false → st.promoWaiting.contains uid = true →
      routeOnText env st chatID uid = .userPromoInput) := by
  constructor
  · intro hadm hsup
    have hs : uid ∈ st.supportUsers := by simpa using hsup
    unfold routeOnText
    rw [if_neg hchat]
    simp [hadm, hs]
  · intro hadm hpromo
    have hp : uid ∈ st.promoWaiting := by simpa using hpromo
    unfold routeOnText
    rw [if_neg hchat]
    simp [hadm, hp]

/-- Witness for the amended C4: non-staff 777 in both modes is routed to
promo input, staff 1 in support mode is routed to support forwarding. -/
theorem router_precedence_amended_witness :
    routeOnText routerEnvSample routerStateSample 0 777 = .userPromoInput ∧
    routeOnText routerEnvSample routerStateAdminSupport 0 1 = .supportUserMessage :=
  ⟨(router_precedence_amended routerEnvSample routerStateSample 0 777 (by decide)).2
      (by decide) (by decide),
   (router_precedence_amended routerEnvSample routerStateAdminSupport 0 1 (by decide)).1
      (by decide) (by decide)⟩

/-- When the replied-to text is nonempty and carries a recoverable tag,
the four-stage recovery returns exactly the id extracted from the text. -/
lemma resolveTargetUserID_text (t caption : List Char) (osender : Option Int)
    (nested : Option (List Char)) (hne2 : t.isEmpty = false)
    (hex : extractUserIDFromTicket t ≠ 0) :
    resolveTargetUserID ⟨t, caption, osender, nested⟩ = extractUserIDFromTicket t := by
  unfold resolveTargetUserID
  simp [hne2, hex]

/-- When the text is empty but the caption is nonempty and carries a
recoverable tag, the recovery returns the id extracted from the caption. -/
lemma resolveTargetUserID_caption (caption : List Char) (osender : Option Int)
    (nested : Option (List Char)) (hcap : caption.isEmpty = false)
    (hex : extractUserIDFromTicket caption ≠ 0) :
    resolveTargetUserID ⟨[], caption, osender, nested⟩ = extractUserIDFromTicket caption := by
  unfold resolveTargetUserID
  simp [hcap, hex]

/-- Claim C7: the tag round-trips, whether carried by the post text or by
a media caption: forwarding embeds the actor id and the staff-reply
extraction recovers exactly that id for any header remainder and any
forwarded content; a replied-to post from which no id is recoverable is
silently dropped; a non-reply is ignored. -/
theorem support_tag_roundtrip (uid : Nat) (info content captionInfo captionContent : List Char)
    (osender : Option Int) (nested : Option (List Char))
    (hpos : 0 < uid) (hmax : uid ≤ int64Max) :
    extractUserIDFromTicket (supportPostText uid info content) = (uid : Int) ∧
    handleSupportGroupMessage (some ⟨supportPostText uid info content, [], osender, nested⟩) =
      .deliveredTo (uid : Int) ∧
    handleSupportGroupMessage
        (some ⟨[], supportPostText uid captionInfo captionContent, osender, nested⟩) =
      .deliveredTo (uid : Int) ∧
    (∀ r : RepliedToMsg, resolveTargetUserID r = 0 →
      handleSupportGroupMessage (some r) = .droppedSilently) ∧
    handleSupportGroupMessage none = .notAReply := by
  have hx1 := extract_supportPostText uid info content hmax
  have hx2 := extract_supportPostText uid captionInfo captionContent hmax
  have hne : ((uid : Int)) ≠ 0 := by
    simp only [ne_eq, Int.natCast_eq_zero]
    omega
  refine ⟨hx1, ?_, ?_, ?_, rfl⟩
  · have hres := resolveTargetUserID_text (supportPostText uid info content) [] osender nested
      rfl (by rw [hx1]; exact hne)
    simp only [handleSupportGroupMessage, hres, hx1]
    rw [if_neg hne]
  · have hres := resolveTargetUserID_caption (supportPostText uid captionInfo captionContent)
      osender nested rfl (by rw [hx2]; exact hne)
    simp only [handleSupportGroupMessage, hres, hx2]
    rw [if_neg hne]
  · intro r h0
    simp [handleSupportGroupMessage, h0]

/-- Witness for C7 at actor id 555 with concrete header remainder and
content, plus a tagless post that is dropped. -/
theorem support_tag_roundtrip_witness :
    extractUserIDFromTicket (supportPostText 555 ['i'] ['c']) = (555 : Int) ∧
    handleSupportGroupMessage (some ⟨supportPostText 555 ['i'] ['c'], [], none, none⟩) =
      .deliveredTo (555 : Int) ∧
    handleSupportGroupMessage (some ⟨[], supportPostText 555 [] [], none, none⟩) =
      .deliveredTo (555 : Int) ∧
    handleSupportGroupMessage (some ⟨['z'], [], none, none⟩) = .droppedSilently := by
  have h := support_tag_roundtrip 555 ['i'] ['c'] [] [] none none (by decide) (by decide)
  exact ⟨h.1, h.2.1, h.2.2.1, h.2.2.2.1 ⟨['z'], [], none, none⟩ (by decide)⟩

/-- Claim C9: in both the balance-paid purchase and the subscription
extension, when the debit succeeds and the subsequent provisioning or
extension fails, a compensating credit of the same amount is applied to
the same user before the error outcome is surfaced: every balance is
unchanged overall and no subscription row is added. -/
theorem balance_compensation (st : Store) (uid tid productID : Int) (price : ℚ)
    (expiresAt : Int) (hmap : st.tidToUid tid = some uid) (hbal : price ≤ st.balances uid) :
    (handlePayWithBalance uid tid productID price expiresAt none st).2 = .provisioningFailed ∧
    (∀ u, (handlePayWithBalance uid tid productID price expiresAt none st).1.balances u =
      st.balances u) ∧
    (handlePayWithBalance uid tid productID price expiresAt none st).1.subs = st.subs ∧
    (handleExtendPay uid tid price false st).2 = .provisioningFailed ∧
    (∀ u, (handleExtendPay uid tid price false st).1.balances u = st.balances u) ∧
    (handleExtendPay uid tid price false st).1.subs = st.subs := by
  have hnlt : ¬ st.balances uid < price := not_lt.mpr hbal
  refine ⟨?_, ?_, ?_, ?_, ?_, ?_⟩
  · simp [handlePayWithBalance, dbDeductBalance, svcAddUserBalance, dbAddUserBalance,
      hnlt, hmap]
  · intro u
    by_cases hu : u = uid
    · simp [handlePayWithBalance, dbDeductBalance, svcAddUserBalance, dbAddUserBalance,
        hnlt, hmap, hu, sub_add_cancel]
    · simp [handlePayWithBalance, dbDeductBalance, svcAddUserBalance, dbAddUserBalance,
        hnlt, hmap, hu]
  · simp [handlePayWithBalance, dbDeductBalance, svcAddUserBalance, dbAddUserBalance,
      hnlt, hmap]
  · simp [handleExtendPay, dbDeductBalance, svcAddUserBalance, dbAddUserBalance, hnlt, hmap]
  · intro u
    by_cases hu : u = uid
    · simp [handleExtendPay, dbDeductBalance, svcAddUserBalance, dbAddUserBalance,
        hnlt, hmap, hu, sub_add_cancel]
    · simp [handleExtendPay, dbDeductBalance, svcAddUserBalance, dbAddUserBalance,
        hnlt, hmap, hu]
  · simp [handleExtendPay, dbDeductBalance, svcAddUserBalance, dbAddUserBalance, hnlt, hmap]

/-- Witness for C9 at the concrete store: user 7 (telegram id 42) holds
500, the price is 450, provisioning fails, and the balance ends
unchanged with no subscription. -/
theorem balance_compensation_witness :
    (handlePayWithBalance 7 42 1 450 0 none storeSample).2 = .provisioningFailed ∧
    (handlePayWithBalance 7 42 1 450 0 none storeSample).1.balances 7 =
      storeSample.balances 7 ∧
    (handlePayWithBalance 7 42 1 450 0 none storeSample).1.subs = storeSample.subs ∧
    (handleExtendPay 7 42 450 false storeSample).2 = .provisioningFailed ∧
    (handleExtendPay 7 42 450 false storeSample).1.balances 7 = storeSample.balances 7 ∧
    (handleExtendPay 7 42 450 false storeSample).1.subs = storeSample.subs := by
  have h := balance_compensation storeSample 7 42 1 450 0 (by decide)
    (by norm_num [storeSample])
  exact ⟨h.1, h.2.1 7, h.2.2.1, h.2.2.2.1, h.2.2.2.2.1 7, h.2.2.2.2.2⟩

end VpnBot
